import Mathlib

/-!
Shallow embedding of the orbital-mechanics core of `bevy_orbits`
(src/src/lib.rs and src/src/transfer.rs), with `f32` values idealised as
real numbers. The missing `math` module is reconstructed from the design
document, as noted on each of those definitions.
-/

namespace BevyOrbits

noncomputable section

open Real

/-- The full angle `2π` (`TAU` in the source). -/
def tau : ℝ := 2 * Real.pi

/-- Real-valued counterpart of `f32::rem_euclid(TAU)`: the representative of
`x` modulo `2π` lying in `[0, 2π)`. -/
def wrapTau (x : ℝ) : ℝ := tau * Int.fract (x / tau)

/-- Orbital elements, from `src/src/lib.rs` (`Orbit`). -/
structure Orbit where
  semi_major_axis : ℝ
  eccentricity : ℝ
  argument_of_periapsis : ℝ
  initial_mean_anomaly : ℝ

/-- A single impulsive orbit change, from `src/src/transfer.rs` (`Maneuver`). -/
structure Maneuver where
  start_orbit : Orbit
  target_orbit : Orbit
  execution_time : ℝ

/-- An ordered queue of maneuvers, from `src/src/transfer.rs` (`Transfer`);
the `VecDeque` is modelled as a list whose head is the queue front. -/
structure Transfer where
  maneuvers : List Maneuver

/-- An ordered queue of transfers attached to a body, from
`src/src/transfer.rs` (`TransferSchedule`). -/
structure TransferSchedule where
  transfers : List Transfer

/-- Modelled from the spec: `calculate_period` of the missing `math` module,
`period = 2π·sqrt(a³ / μ)` (§4.2 step 2). -/
def calculate_period (semi_major_axis mass : ℝ) : ℝ :=
  tau * Real.sqrt (semi_major_axis ^ 3 / mass)

/-- Modelled from the spec: `calculate_mean_motion` of the missing `math`
module, `mean_motion = 2π / period` (§4.2 step 2). -/
def calculate_mean_motion (period : ℝ) : ℝ := tau / period

/-- Modelled from the spec: `calculate_mean_anomaly` of the missing `math`
module, the anomaly clock `(initial + mean_motion·time) mod 2π`
(§4.2 step 3; the call sites fold any argument-of-periapsis offset into the
`initial` argument). -/
def calculate_mean_anomaly (mean_motion initial time : ℝ) : ℝ :=
  wrapTau (initial + mean_motion * time)

/-- Modelled from the spec: `calculate_initial_mean_anomaly` of the missing
`math` module, the inverse of the anomaly clock — the mean anomaly at time 0
that reproduces the given `anomaly` at the given `time` under the period's
mean motion (§4.3: "back-solved so that, evaluated at the arrival time, it
reproduces the correct arrival phase"). -/
def calculate_initial_mean_anomaly (anomaly period time : ℝ) : ℝ :=
  wrapTau (anomaly - (tau / period) * time)

/-- One Newton–Raphson step for Kepler's equation `E − e·sin E = M`. -/
def keplerNewtonStep (e M E : ℝ) : ℝ :=
  E - (E - e * Real.sin E - M) / (1 - e * Real.cos E)

/-- Modelled from the spec: `calculate_eccentric_anomaly` of the missing
`math` module — Newton–Raphson on Kepler's equation seeded at `E₀ = M` with a
fixed iteration budget and no convergence check (§4.1); the budget is taken
as 10 iterations. -/
def calculate_eccentric_anomaly (e M : ℝ) : ℝ :=
  (keplerNewtonStep e M)^[10] M

/-- Modelled from the spec: `calculate_true_anomaly` of the missing `math`
module — the standard half-angle relation from eccentric anomaly
(§4.2 step 5); quadrant selection is done by the callers. -/
def calculate_true_anomaly (e E : ℝ) : ℝ :=
  2 * Real.arctan (Real.sqrt ((1 + e) / (1 - e)) * Real.tan (E / 2))

/-- Modelled from the spec: `calculate_position_at_time` of the missing
`math` module (§4.2 steps 2–6): anomaly clock, Kepler solve, quadrant-corrected
true anomaly, radius `a(1 − e·cos E)`, and the in-plane point at angle
`true_anomaly + argument_of_periapsis` (the demo scenes orbit in the XZ
plane). -/
def calculate_position_at_time
    (semi_major_axis eccentricity argument_of_periapsis initial_mean_anomaly
      mass time : ℝ) : ℝ × ℝ × ℝ :=
  let period := calculate_period semi_major_axis mass
  let mean_motion := calculate_mean_motion period
  let mean_anomaly :=
    calculate_mean_anomaly mean_motion
      (initial_mean_anomaly + argument_of_periapsis) time
  let eccentric_anomaly := calculate_eccentric_anomaly eccentricity mean_anomaly
  let true_anomaly :=
    if mean_anomaly < Real.pi then
      calculate_true_anomaly eccentricity eccentric_anomaly
    else
      tau - calculate_true_anomaly eccentricity eccentric_anomaly
  let r := semi_major_axis * (1 - eccentricity * Real.cos eccentric_anomaly)
  (r * Real.cos (true_anomaly + argument_of_periapsis), 0,
    r * Real.sin (true_anomaly + argument_of_periapsis))

/-- Per-body behaviour of the `calculate_orbits` system of `src/src/lib.rs`
(lines 28–44): if `semi_major_axis == 0` the translation is the origin;
otherwise the position is computed with the hardcoded gravitational parameter
`1_000_000_000_000.0`, the only mass the system ever uses (its query reads
only `Orbit` and `Transform`). -/
def orbitTranslation (orbit : Orbit) (time : ℝ) : ℝ × ℝ × ℝ :=
  if orbit.semi_major_axis = 0 then (0, 0, 0)
  else
    calculate_position_at_time orbit.semi_major_axis orbit.eccentricity
      orbit.argument_of_periapsis orbit.initial_mean_anomaly
      1000000000000 time

/-- The per-tick position of a body as a function of the gravitational
parameter the host resolved for its parent: `calculate_orbits` never queries
the parent's `Mass` component, so the resolved value is ignored and the
hardcoded constant of `orbitTranslation` is used instead. -/
def positionWithParentMass (parent_mass : ℝ) (orbit : Orbit) (time : ℝ) :
    ℝ × ℝ × ℝ :=
  orbitTranslation orbit time

/-- `TransferSchedule::push_transfer` from `src/src/transfer.rs`. -/
def TransferSchedule.push_transfer (s : TransferSchedule) (t : Transfer) :
    TransferSchedule :=
  ⟨s.transfers ++ [t]⟩

/-- `TransferSchedule::overdue_maneuver` from `src/src/transfer.rs`
(lines 31–46), with the `&mut self` mutation made explicit: the result pairs
the popped maneuver (if any) with the updated schedule. -/
def TransferSchedule.overdue_maneuver (s : TransferSchedule) (seconds : ℝ) :
    Option Maneuver × TransferSchedule :=
  match s.transfers with
  | [] => (none, s)
  | next_transfer :: rest =>
    match next_transfer.maneuvers with
    | [] => (none, s)
    | next_maneuver :: remaining =>
      if seconds < next_maneuver.execution_time then (none, s)
      else if remaining.isEmpty then (some next_maneuver, ⟨rest⟩)
      else (some next_maneuver, ⟨⟨remaining⟩ :: rest⟩)

/-- Per-body behaviour of the `execute_orbital_maneuvers` system from
`src/src/transfer.rs` (lines 49–59): pop the overdue maneuver, if any, and
overwrite the body's four orbital elements with the maneuver's target
orbit's. -/
def execute_orbital_maneuvers (seconds : ℝ) (orbit : Orbit)
    (schedule : TransferSchedule) : Orbit × TransferSchedule :=
  match schedule.overdue_maneuver seconds with
  | (some next_maneuver, schedule2) =>
    ({ semi_major_axis := next_maneuver.target_orbit.semi_major_axis
       eccentricity := next_maneuver.target_orbit.eccentricity
       argument_of_periapsis := next_maneuver.target_orbit.argument_of_periapsis
       initial_mean_anomaly := next_maneuver.target_orbit.initial_mean_anomaly },
      schedule2)
  | (none, schedule2) => (orbit, schedule2)

/-- Repeated schedule advancing over a list of tick times, collecting the
maneuvers that were executed. -/
def TransferSchedule.advanceAll :
    List ℝ → TransferSchedule → List Maneuver × TransferSchedule
  | [], s => ([], s)
  | t :: ts, s =>
    let step := s.overdue_maneuver t
    let later := TransferSchedule.advanceAll ts step.2
    (match step.1 with
     | some m => m :: later.1
     | none => later.1,
     later.2)

/-- Number of queued maneuvers of a transfer. -/
def Transfer.maneuverCount (t : Transfer) : ℕ := t.maneuvers.length

/-- Total number of queued maneuvers of a schedule. -/
def TransferSchedule.maneuverCount (s : TransferSchedule) : ℕ :=
  (s.transfers.map Transfer.maneuverCount).sum

/-- `common_focus_circular_to_circular_hohmann_transfer` from
`src/src/transfer.rs` (lines 79–138). Note that in the source the Rust
expression `-(x).rem_euclid(TAU)` applies `rem_euclid` before the unary
minus, so the stored argument of periapsis is the negation of the wrapped
value. -/
def common_focus_circular_to_circular_hohmann_transfer
    (start_orbit target_orbit : Orbit) (parent_mass execution_time : ℝ) :
    Transfer :=
  let start_period := calculate_period start_orbit.semi_major_axis parent_mass
  let start_mean_motion := calculate_mean_motion start_period
  let start_mean_anomaly :=
    calculate_mean_anomaly start_mean_motion
      (start_orbit.initial_mean_anomaly + start_orbit.argument_of_periapsis)
      execution_time
  let transfer_semi_major_axis :=
    (start_orbit.semi_major_axis + target_orbit.semi_major_axis) / 2
  let transfer_eccentricity :=
    |1 - start_orbit.semi_major_axis / transfer_semi_major_axis|
  let transfer_period := calculate_period transfer_semi_major_axis parent_mass
  let transfer_argument_of_periapsis_offset :=
    if start_orbit.semi_major_axis < transfer_semi_major_axis then (0 : ℝ)
    else Real.pi
  let transfer_argument_of_periapsis :=
    -(wrapTau (start_mean_anomaly + transfer_argument_of_periapsis_offset))
  let transfer_initial_mean_anomaly :=
    calculate_initial_mean_anomaly transfer_argument_of_periapsis_offset
      transfer_period execution_time
  let transfer_orbit : Orbit :=
    { semi_major_axis := transfer_semi_major_axis
      eccentricity := transfer_eccentricity
      argument_of_periapsis := transfer_argument_of_periapsis
      initial_mean_anomaly := transfer_initial_mean_anomaly }
  let enter_transfer_orbit_time := execution_time
  let exit_transfer_orbit_time := execution_time + transfer_period / 2
  let target_period := calculate_period target_orbit.semi_major_axis parent_mass
  let target_initial_mean_anomaly :=
    calculate_initial_mean_anomaly (Real.pi + start_mean_anomaly) target_period
      exit_transfer_orbit_time
  let actual_target_orbit : Orbit :=
    { semi_major_axis := target_orbit.semi_major_axis
      eccentricity := target_orbit.eccentricity
      argument_of_periapsis := 0
      initial_mean_anomaly := target_initial_mean_anomaly }
  { maneuvers :=
      [ { start_orbit := start_orbit
          target_orbit := transfer_orbit
          execution_time := enter_transfer_orbit_time },
        { start_orbit := transfer_orbit
          target_orbit := actual_target_orbit
          execution_time := exit_transfer_orbit_time } ] }

/-- The left-hand side `f(k)` of the root equation of the tangential branch
(`src/src/transfer.rs` lines 162–171), debug printing dropped. -/
def tangentialF (et departure_true_anomaly k : ℝ) : ℝ :=
  Real.arccos ((k + et ^ 2 - 1) / (et * k))
    + Real.arccos ((k - et ^ 2 - 1) / (et * (k - 2)))
    + Real.arccos (((2 - k) * k + 2 * et ^ 2 - 2) / ((k - 2) * k))
    - Real.pi - departure_true_anomaly

/-- The derivative expression `df(k)` of the tangential branch
(`src/src/transfer.rs` lines 172–180). -/
def tangentialDf (et k : ℝ) : ℝ :=
  (2 * (k - 1)
      * (-1 * Real.sqrt (1 - (-2 * et ^ 2 + k ^ 2 - 2 * k + 2) ^ 2)
            * Real.arccos (2 * et ^ 2 - (k - 2) * k - 2)
          + k ^ 2 - 2 * k))
    / ((k - 2) ^ 2 * k ^ 2
        * Real.sqrt (1 - (-2 * et ^ 2 + k ^ 2 - 2 * k + 2) ^ 2))

/-- One clamped Newton step of the `k` search
(`src/src/transfer.rs` line 187): `(k - f(k)/df(k)).max(1-et).min(1+et)`. -/
def tangentialKStep (et departure_true_anomaly k : ℝ) : ℝ :=
  min (max (k - tangentialF et departure_true_anomaly k / tangentialDf et k)
        (1 - et))
    (1 + et)

/-- The `k` produced by the 50-iteration loop of the tangential branch
(`src/src/transfer.rs` lines 183–188), seeded at `k = 1.0`. -/
def tangentialK (et departure_true_anomaly : ℝ) : ℝ :=
  (tangentialKStep et departure_true_anomaly)^[50] 1

/-- `common_focus_tangential_hohmann_transfer` from `src/src/transfer.rs`
(lines 140–247), debug printing and commented-out alternatives dropped.
The source has no convergence or zero-denominator guard and unconditionally
returns a `Transfer`; both maneuvers are stamped with the literal execution
time `0.0` rather than the `execution_time` argument. -/
def common_focus_tangential_hohmann_transfer
    (start_orbit target_orbit : Orbit) (parent_mass execution_time : ℝ) :
    Transfer :=
  let time := execution_time
  let start_period := calculate_period start_orbit.semi_major_axis parent_mass
  let start_mean_motion := calculate_mean_motion start_period
  let departure_mean_anomaly :=
    calculate_mean_anomaly start_mean_motion start_orbit.initial_mean_anomaly
      time
  let departure_eccentric_anomaly :=
    calculate_eccentric_anomaly start_orbit.eccentricity departure_mean_anomaly
  let departure_true_anomaly :=
    if departure_mean_anomaly < Real.pi then
      calculate_true_anomaly start_orbit.eccentricity
        departure_eccentric_anomaly
    else
      tau - calculate_true_anomaly start_orbit.eccentricity
          departure_eccentric_anomaly
  let et := target_orbit.eccentricity
  let k := tangentialK et departure_true_anomaly
  let theta :=
    if departure_true_anomaly > Real.pi then
      -Real.arccos ((k + et ^ 2 - 1) / (et * k)) + departure_true_anomaly - tau
    else
      departure_true_anomaly - Real.arccos ((k + et ^ 2 - 1) / (et * k))
  let aT := target_orbit.semi_major_axis
  let transfer_periapsis := start_orbit.semi_major_axis
  let pt := transfer_periapsis
  let transfer_semi_major_axis :=
    pt * (aT * k * Real.cos theta + pt)
      / (aT * k * (Real.cos theta - 1) + 2 * pt)
  let transfer_eccentricity := 1 - transfer_periapsis / transfer_semi_major_axis
  let transfer_argument_of_periapsis := -departure_true_anomaly
  let transfer_orbit : Orbit :=
    { semi_major_axis := transfer_semi_major_axis
      eccentricity := transfer_eccentricity
      argument_of_periapsis := transfer_argument_of_periapsis
      initial_mean_anomaly := 0 }
  let actual_target_orbit : Orbit :=
    { semi_major_axis := target_orbit.semi_major_axis
      eccentricity := target_orbit.eccentricity
      argument_of_periapsis := 0
      initial_mean_anomaly := 0 }
  { maneuvers :=
      [ { start_orbit := start_orbit
          target_orbit := transfer_orbit
          execution_time := 0 },
        { start_orbit := transfer_orbit
          target_orbit := actual_target_orbit
          execution_time := 0 } ] }

/-- `calculate_transfer` from `src/src/transfer.rs` (lines 61–77): the
planner entry point, dispatching on whether both orbits are circular. -/
def calculate_transfer (start_orbit target_orbit : Orbit)
    (parent_mass execution_time : ℝ) : Transfer :=
  if start_orbit.eccentricity = 0 ∧ target_orbit.eccentricity = 0 then
    common_focus_circular_to_circular_hohmann_transfer start_orbit target_orbit
      parent_mass execution_time
  else
    common_focus_tangential_hohmann_transfer start_orbit target_orbit
      parent_mass execution_time

/-- Sample circular orbit of radius 1, for concrete instantiations. -/
def orbitA : Orbit :=
  { semi_major_axis := 1
    eccentricity := 0
    argument_of_periapsis := 0
    initial_mean_anomaly := 0 }

/-- Sample circular orbit of radius 2, for concrete instantiations. -/
def orbitB : Orbit :=
  { semi_major_axis := 2
    eccentricity := 0
    argument_of_periapsis := 0
    initial_mean_anomaly := 0 }

/-- Sample circular orbit of radius 3, for concrete instantiations. -/
def orbitC : Orbit :=
  { semi_major_axis := 3
    eccentricity := 0
    argument_of_periapsis := 0
    initial_mean_anomaly := 0 }

/-- Sample maneuver due at time 3, for concrete instantiations. -/
def maneuverAB : Maneuver :=
  { start_orbit := orbitA
    target_orbit := orbitB
    execution_time := 3 }

/-- Sample maneuver due at time 4, for concrete instantiations. -/
def maneuverBC : Maneuver :=
  { start_orbit := orbitB
    target_orbit := orbitC
    execution_time := 4 }

/-- Sample schedule holding one transfer with two queued maneuvers. -/
def sampleSchedule : TransferSchedule := ⟨[⟨[maneuverAB, maneuverBC]⟩]⟩

theorem tau_pos : 0 < tau := by
  unfold tau
  positivity

theorem one_lt_tau : 1 < tau := by
  have h := Real.pi_gt_three
  unfold tau
  linarith

theorem wrapTau_nonneg (x : ℝ) : 0 ≤ wrapTau x :=
  mul_nonneg tau_pos.le (Int.fract_nonneg _)

theorem wrapTau_lt_tau (x : ℝ) : wrapTau x < tau :=
  mul_lt_of_lt_one_right tau_pos (Int.fract_lt_one _)

theorem wrapTau_eq_self {x : ℝ} (h0 : 0 ≤ x) (h1 : x < tau) : wrapTau x = x := by
  unfold wrapTau
  rw [Int.fract_eq_self.2 ⟨div_nonneg h0 tau_pos.le, (div_lt_one tau_pos).2 h1⟩,
    mul_comm]
  exact div_mul_cancel₀ x (ne_of_gt tau_pos)

theorem wrapTau_zero : wrapTau 0 = 0 := by
  simp [wrapTau]

/-- C2: advancing the schedule at time `t` pops the front maneuver of the
front transfer exactly when it is due (`execution_time ≤ t`), overwriting the
body's four orbital elements with the maneuver's target orbit and dropping
the transfer when it becomes empty; when the front maneuver is not yet due,
or the schedule is empty, orbit and schedule are unchanged. -/
theorem schedule_advance_spec (o : Orbit) (t : ℝ) :
    (∀ m ms rest, m.execution_time ≤ t →
      execute_orbital_maneuvers t o ⟨⟨m :: ms⟩ :: rest⟩
        = (m.target_orbit,
            if ms.isEmpty then (⟨rest⟩ : TransferSchedule)
            else ⟨⟨ms⟩ :: rest⟩))
    ∧ (∀ m ms rest, t < m.execution_time →
      execute_orbital_maneuvers t o ⟨⟨m :: ms⟩ :: rest⟩
        = (o, ⟨⟨m :: ms⟩ :: rest⟩))
    ∧ execute_orbital_maneuvers t o ⟨[]⟩ = (o, ⟨[]⟩) := by
  refine ⟨?_, ?_, rfl⟩
  · intro m ms rest h
    cases ms with
    | nil =>
      simp [execute_orbital_maneuvers, TransferSchedule.overdue_maneuver,
        if_neg (not_lt.2 h)]
    | cons m2 ms2 =>
      simp [execute_orbital_maneuvers, TransferSchedule.overdue_maneuver,
        if_neg (not_lt.2 h)]
  · intro m ms rest h
    simp [execute_orbital_maneuvers, TransferSchedule.overdue_maneuver,
      if_pos h]

/-- Witness for C2: at time 5 the single queued maneuver (due at 3) fires,
the orbit becomes its target orbit, and the emptied transfer is removed. -/
theorem schedule_advance_spec_witness :
    execute_orbital_maneuvers 5 orbitA ⟨[⟨[maneuverAB]⟩]⟩ = (orbitB, ⟨[]⟩) := by
  have h := (schedule_advance_spec orbitA 5).1 maneuverAB [] []
    (by norm_num [maneuverAB])
  simpa [maneuverAB] using h

/-- C6: a single schedule advance consumes at most one maneuver, and when the
front transfer holds two maneuvers that are both overdue, only the first is
popped — the second stays queued at the front, to be re-examined on a later
tick. -/
theorem one_maneuver_per_tick (t : ℝ) (s : TransferSchedule) :
    s.maneuverCount ≤ ((s.overdue_maneuver t).2).maneuverCount + 1
    ∧ (∀ m1 m2 ms rest,
        s.transfers = ⟨m1 :: m2 :: ms⟩ :: rest →
        m1.execution_time ≤ t → m2.execution_time ≤ t →
        s.overdue_maneuver t = (some m1, ⟨⟨m2 :: ms⟩ :: rest⟩)) := by
  constructor
  · obtain ⟨transfers⟩ := s
    cases transfers with
    | nil => simp [TransferSchedule.overdue_maneuver]
    | cons tr rest =>
      obtain ⟨ms⟩ := tr
      cases ms with
      | nil => simp [TransferSchedule.overdue_maneuver]
      | cons m ms2 =>
        by_cases h : t < m.execution_time
        · simp [TransferSchedule.overdue_maneuver, if_pos h]
        · cases ms2 with
          | nil =>
            simp only [TransferSchedule.overdue_maneuver, if_neg h,
              TransferSchedule.maneuverCount, Transfer.maneuverCount,
              List.isEmpty_nil, if_true, List.map_cons, List.sum_cons,
              List.length_cons, List.length_nil]
            omega
          | cons m2 ms3 =>
            simp only [TransferSchedule.overdue_maneuver, if_neg h,
              TransferSchedule.maneuverCount, Transfer.maneuverCount,
              List.isEmpty_cons, if_false, Bool.false_eq_true, ite_false,
              List.map_cons, List.sum_cons, List.length_cons]
            omega
  · intro m1 m2 ms rest hs h1 h2
    obtain ⟨transfers⟩ := s
    simp only [TransferSchedule.mk.injEq] at hs
    subst hs
    simp [TransferSchedule.overdue_maneuver, if_neg (not_lt.2 h1)]

/-- Witness for C6: at time 10 both queued maneuvers (due at 3 and 4) are
overdue, yet only the first is popped and the second remains queued. -/
theorem one_maneuver_per_tick_witness :
    sampleSchedule.maneuverCount
        ≤ ((sampleSchedule.overdue_maneuver 10).2).maneuverCount + 1
    ∧ sampleSchedule.overdue_maneuver 10
        = (some maneuverAB, ⟨[⟨[maneuverBC]⟩]⟩) := by
  refine ⟨(one_maneuver_per_tick 10 sampleSchedule).1, ?_⟩
  exact (one_maneuver_per_tick 10 sampleSchedule).2 maneuverAB maneuverBC [] []
    rfl (by norm_num [maneuverAB]) (by norm_num [maneuverBC])

/-- C9: when the front transfer of a schedule has an empty maneuver queue,
advancing at any time returns no maneuver and leaves the schedule unchanged;
iterating over any sequence of tick times executes nothing, so the maneuvers
of every later transfer are never reached. -/
theorem stuck_empty_transfer (rest : List Transfer) (t : ℝ) (ts : List ℝ) :
    TransferSchedule.overdue_maneuver ⟨⟨[]⟩ :: rest⟩ t
        = (none, ⟨⟨[]⟩ :: rest⟩)
    ∧ TransferSchedule.advanceAll ts ⟨⟨[]⟩ :: rest⟩
        = ([], ⟨⟨[]⟩ :: rest⟩) := by
  refine ⟨rfl, ?_⟩
  induction ts with
  | nil => rfl
  | cons t2 ts2 ih =>
    simpa [TransferSchedule.advanceAll, TransferSchedule.overdue_maneuver]
      using ih

/-- C10: in both planner branches the produced transfer has exactly two
maneuvers that chain: the first starts from the requested start orbit, the
second starts from the first's target (the transfer orbit), and the second's
target keeps the requested target orbit's semi-major axis and
eccentricity. -/
theorem planned_transfer_chains (sOrb tOrb : Orbit) (pm t : ℝ) :
    ((calculate_transfer sOrb tOrb pm t).maneuvers.length = 2)
    ∧ ((calculate_transfer sOrb tOrb pm t).maneuvers)[0]?.map Maneuver.start_orbit
        = some sOrb
    ∧ ((calculate_transfer sOrb tOrb pm t).maneuvers)[1]?.map Maneuver.start_orbit
        = ((calculate_transfer sOrb tOrb pm t).maneuvers)[0]?.map
            Maneuver.target_orbit
    ∧ ((calculate_transfer sOrb tOrb pm t).maneuvers)[1]?.map
          (fun m => m.target_orbit.semi_major_axis)
        = some tOrb.semi_major_axis
    ∧ ((calculate_transfer sOrb tOrb pm t).maneuvers)[1]?.map
          (fun m => m.target_orbit.eccentricity)
        = some tOrb.eccentricity := by
  unfold calculate_transfer
  split_ifs with h
  · simp [common_focus_circular_to_circular_hohmann_transfer]
  · simp [common_focus_tangential_hohmann_transfer]

/-- C4: the general tangential branch is a total function into `Transfer`:
for every input it returns a two-maneuver transfer, so the source has no
transfer-infeasible failure channel (no convergence check and no
zero-denominator guard turn into an error result). -/
theorem tangential_always_returns_transfer (sOrb tOrb : Orbit) (pm t : ℝ) :
    (common_focus_tangential_hohmann_transfer sOrb tOrb pm t).maneuvers.length
      = 2 := by
  simp [common_focus_tangential_hohmann_transfer]

/-- C3 (amended): only the circular-to-circular branch stamps the first
maneuver with the requested execution time; the tangential branch stamps its
first maneuver with the literal time 0. -/
theorem first_maneuver_time_amended (sOrb tOrb : Orbit) (pm t : ℝ) :
    ((common_focus_circular_to_circular_hohmann_transfer sOrb tOrb pm
          t).maneuvers)[0]?.map Maneuver.execution_time = some t
    ∧ ((common_focus_tangential_hohmann_transfer sOrb tOrb pm
          t).maneuvers)[0]?.map Maneuver.execution_time = some 0 := by
  constructor
  · simp [common_focus_circular_to_circular_hohmann_transfer]
  · simp [common_focus_tangential_hohmann_transfer]

/-- C3 counterexample: planning from an eccentric start orbit with execution
time 1 takes the tangential branch, whose first maneuver is stamped with
time 0, not with the requested time 1. -/
theorem first_maneuver_time_cex :
    ((calculate_transfer (⟨2, 1/2, 0, 0⟩ : Orbit) (⟨4, 1/10, 0, 0⟩ : Orbit)
        1e11 1).maneuvers)[0]?.map Maneuver.execution_time = some 0
    ∧ (0 : ℝ) ≠ 1 := by
  constructor
  · unfold calculate_transfer
    rw [if_neg (by norm_num : ¬((1 : ℝ) / 2 = 0 ∧ (1 : ℝ) / 10 = 0))]
    simp [common_focus_tangential_hohmann_transfer]
  · norm_num

/-- C8: the per-tick position the core computes for a body is the same
whatever gravitational parameter the host resolved for the body's parent:
`calculate_orbits` ignores the parent mass and always uses its hardcoded
constant. -/
theorem position_ignores_parent_mass (m1 m2 : ℝ) (o : Orbit) (t : ℝ) :
    positionWithParentMass m1 o t = positionWithParentMass m2 o t := rfl

/-- C5: an orbit with zero semi-major axis is pinned to the origin at every
time, whatever its eccentricity, argument of periapsis, or initial mean
anomaly. -/
theorem degenerate_orbit_origin (o : Orbit) (t : ℝ)
    (h : o.semi_major_axis = 0) : orbitTranslation o t = (0, 0, 0) := by
  simp [orbitTranslation, h]

/-- Witness for C5 at a degenerate orbit with nonzero remaining elements. -/
theorem degenerate_orbit_origin_witness :
    orbitTranslation (⟨0, 1/2, 1, 2⟩ : Orbit) 7 = (0, 0, 0) :=
  degenerate_orbit_origin (⟨0, 1/2, 1, 2⟩ : Orbit) 7 rfl

theorem wrapTau_one : wrapTau 1 = 1 :=
  wrapTau_eq_self zero_le_one one_lt_tau

/-- C1: on the reference example (circular orbits with semi-major axes 2 and
4, gravitational parameter 1e11, execution time 0) the planner returns
exactly two maneuvers; the first executes at time 0 towards a transfer orbit
with semi-major axis 3 and eccentricity 1/3, the second executes half a
transfer period later (the period of a semi-major-axis-3 orbit under 1e11,
halved) towards an orbit with semi-major axis 4 and eccentricity 0. -/
theorem hohmann_circular_example :
    ((calculate_transfer (⟨2, 0, 0, 0⟩ : Orbit) (⟨4, 0, 0, 0⟩ : Orbit) 1e11
        0).maneuvers.length = 2)
    ∧ ((calculate_transfer (⟨2, 0, 0, 0⟩ : Orbit) (⟨4, 0, 0, 0⟩ : Orbit) 1e11
        0).maneuvers)[0]?.map Maneuver.execution_time = some 0
    ∧ ((calculate_transfer (⟨2, 0, 0, 0⟩ : Orbit) (⟨4, 0, 0, 0⟩ : Orbit) 1e11
        0).maneuvers)[0]?.map (fun m => m.target_orbit.semi_major_axis)
        = some 3
    ∧ ((calculate_transfer (⟨2, 0, 0, 0⟩ : Orbit) (⟨4, 0, 0, 0⟩ : Orbit) 1e11
        0).maneuvers)[0]?.map (fun m => m.target_orbit.eccentricity)
        = some (1 / 3)
    ∧ ((calculate_transfer (⟨2, 0, 0, 0⟩ : Orbit) (⟨4, 0, 0, 0⟩ : Orbit) 1e11
        0).maneuvers)[1]?.map Maneuver.execution_time
        = some (calculate_period 3 1e11 / 2)
    ∧ ((calculate_transfer (⟨2, 0, 0, 0⟩ : Orbit) (⟨4, 0, 0, 0⟩ : Orbit) 1e11
        0).maneuvers)[1]?.map (fun m => m.target_orbit.semi_major_axis)
        = some 4
    ∧ ((calculate_transfer (⟨2, 0, 0, 0⟩ : Orbit) (⟨4, 0, 0, 0⟩ : Orbit) 1e11
        0).maneuvers)[1]?.map (fun m => m.target_orbit.eccentricity)
        = some 0 := by
  refine ⟨?_, ?_, ?_, ?_, ?_, ?_, ?_⟩ <;>
    simp only [calculate_transfer,
      common_focus_circular_to_circular_hohmann_transfer]
  · norm_num
  · norm_num
  · norm_num
  · norm_num
  · norm_num
  · norm_num
  · norm_num

/-- C7 counterexample: with a start orbit whose initial mean anomaly is 1
(circular, semi-major axis 2) and target semi-major axis 4, the transfer
orbit's argument of periapsis is -1, which does not lie in [0, 2π): the
source negates after wrapping, not before. -/
theorem transfer_aop_cex :
    ((common_focus_circular_to_circular_hohmann_transfer (⟨2, 0, 0, 1⟩ : Orbit)
        (⟨4, 0, 0, 0⟩ : Orbit) 1e11 0).maneuvers)[0]?.map
        (fun m => m.target_orbit.argument_of_periapsis) = some ((-1 : ℝ))
    ∧ ¬ ((0 : ℝ) ≤ -1) := by
  constructor
  · simp only [common_focus_circular_to_circular_hohmann_transfer,
      calculate_mean_anomaly]
    norm_num [wrapTau_one]
  · norm_num

/-- C7 (amended): the circular-branch transfer orbit's argument of periapsis
is the negation of the wrapped sum of the departure mean anomaly and the
0-or-π raising/lowering offset; since the wrap lands in [0, 2π) before the
negation, the stored value always lies in (-2π, 0]. -/
theorem transfer_aop_amended (sOrb tOrb : Orbit) (pm t : ℝ) :
    ∃ v : ℝ,
      v = -(wrapTau
          (calculate_mean_anomaly
              (calculate_mean_motion (calculate_period sOrb.semi_major_axis pm))
              (sOrb.initial_mean_anomaly + sOrb.argument_of_periapsis) t
            + (if sOrb.semi_major_axis
                  < (sOrb.semi_major_axis + tOrb.semi_major_axis) / 2
               then (0 : ℝ) else Real.pi)))
      ∧ ((common_focus_circular_to_circular_hohmann_transfer sOrb tOrb pm
            t).maneuvers)[0]?.map
            (fun m => m.target_orbit.argument_of_periapsis) = some v
      ∧ -tau < v ∧ v ≤ 0 := by
  refine ⟨_, rfl, ?_, neg_lt_neg (wrapTau_lt_tau _), neg_nonpos.mpr
    (wrapTau_nonneg _)⟩
  simp [common_focus_circular_to_circular_hohmann_transfer]

end

end BevyOrbits
